import Mathlib

/-
Verification of the Whisper Arabic STT API server (`app.py`) against its
design specification.

The server is a single-file FastAPI application.  We give a shallow
embedding of its two handlers:

  * `transcribe_audio`  (POST /transcribe)  — extension validation,
    temporary-file handling, option assembly, delegation to the external
    whisper model (modelled as an oracle function), Arabic dialect
    post-processing, and the blanket `except Exception` wrapper;
  * `get_model_info`    (GET /model-info)   — static configuration readout.

Python string primitives used by the code (`os.path.splitext`,
`str.lower`, `in`, `str.replace`) are embedded as executable Lean
functions over `List Char`, following CPython's semantics.
-/

/-- Index of the last occurrence of `c` in `l`, or `none` (CPython `str.rfind`
restricted to single-character needles, as used by `os.path.splitext`). -/
def lastIndexOf (l : List Char) (c : Char) : Option Nat :=
  ((l.enum.filter (fun p => p.2 == c)).map Prod.fst).getLast?

/-- CPython `posixpath.splitext`: split `p` into `(root, ext)`.  The extension
is everything from the last dot after the last `/`, unless every character
between that separator and the dot is itself a dot (leading dots of the
basename never start an extension: `splitext ".mp3" = (".mp3", "")`). -/
def splitext (p : String) : String × String :=
  let l := p.toList
  let sepIdx : Int := match lastIndexOf l '/' with
    | none => -1
    | some n => (n : Int)
  let dotIdx : Int := match lastIndexOf l '.' with
    | none => -1
    | some n => (n : Int)
  if sepIdx < dotIdx then
    let startN : Nat := (sepIdx + 1).toNat
    let dotN : Nat := dotIdx.toNat
    if ((l.drop startN).take (dotN - startN)).any (fun ch => ch != '.') then
      (String.mk (l.take dotN), String.mk (l.drop dotN))
    else (p, "")
  else (p, "")

/-- Python `str.lower`, restricted to the ASCII range (sufficient for the
extension strings the server compares against its ASCII allow-list). -/
def str_lower (s : String) : String :=
  String.mk (s.toList.map Char.toLower)

/-- `containsSub pat l`: Python's substring test `pat in l`. -/
def containsSub (pat : List Char) : List Char → Bool
  | [] => pat.isEmpty
  | c :: rest => pat.isPrefixOf (c :: rest) || containsSub pat rest

/-- Python `pat in s` on strings. -/
def str_contains_sub (s pat : String) : Bool :=
  containsSub pat.toList s.toList

/-- Helper for Python `s.replace("", new)`: `new` is inserted before every
character and once at the end. -/
def interAll (new : List Char) : List Char → List Char
  | [] => new
  | c :: rest => new ++ c :: interAll new rest

/-- One left-to-right non-overlapping replacement pass (Python `str.replace`
with a non-empty needle); `fuel` bounds the recursion by the input length. -/
def replaceFuel (old new : List Char) : Nat → List Char → List Char
  | _, [] => []
  | 0, l => l
  | fuel + 1, c :: rest =>
    if old.isPrefixOf (c :: rest) then
      new ++ replaceFuel old new fuel (List.drop old.length (c :: rest))
    else
      c :: replaceFuel old new fuel rest

/-- Python `s.replace(old, new)`: every non-overlapping occurrence of `old`,
scanning left to right, is replaced by `new`; the replacement text is never
rescanned.  An empty `old` matches at every position. -/
def str_replace (s old new : String) : String :=
  if old.isEmpty then
    String.mk (interAll new.toList s.toList)
  else
    String.mk (replaceFuel old.toList new.toList s.toList.length s.toList)

/-- `DIALECT_MAPPING` from `app.py`: the colloquial-to-fusha dictionary.
Shipped empty (the source dict literal has no entries, only a comment).
Python dicts iterate in insertion order, so a list of pairs is faithful. -/
def DIALECT_MAPPING : List (String × String) := []

/-- `post_process_arabic_text`, parameterised by the dialect mapping the
function body iterates over: for each `(dialect, fusha)` pair in order, if
`dialect` occurs in the current text, replace every occurrence of `dialect`
by `dialect ++ " (" ++ fusha ++ ")"`; each pass runs on the already-modified
string. -/
def post_process_arabic_text_with (mapping : List (String × String)) (text : String) : String :=
  mapping.foldl
    (fun processed_text p =>
      if str_contains_sub processed_text p.1 then
        str_replace processed_text p.1 (p.1 ++ " (" ++ p.2 ++ ")")
      else processed_text)
    text

/-- `post_process_arabic_text` as shipped: the loop over the global
`DIALECT_MAPPING`. -/
def post_process_arabic_text (text : String) : String :=
  post_process_arabic_text_with DIALECT_MAPPING text

/-- `MODEL_SIZE` from `app.py` line 24. -/
def MODEL_SIZE : String := "tiny"

/-- One entry of the whisper result's `segments` list.  The handler only ever
rewrites the `text` field; the time bounds stand for the untouched payload. -/
structure Segment where
  text : String
  seg_start : ℚ
  seg_end : ℚ
deriving DecidableEq

/-- Raw output of the external capability `model.transcribe`:
`{text, segments}`. -/
structure RawResult where
  text : String
  segments : List Segment
deriving DecidableEq

/-- The `options` dict assembled at `app.py` lines 76-82 and splatted into
`model.transcribe`. -/
structure TranscriptionOptions where
  language : String
  task : String
  temperature : ℚ
  beam_size : Int
  initial_prompt : String
deriving DecidableEq

/-- The inputs of one POST /transcribe request: the uploaded file's name and
bytes plus the four query parameters. -/
structure TranscribeRequest where
  filename : String
  file_bytes : List Nat
  language : String
  include_dialect_info : Bool
  temperature : ℚ
  beam_size : Int
deriving DecidableEq

/-- The success JSON body returned at `app.py` lines 99-106. -/
structure TranscribeResponse where
  status : String
  text : String
  segments : List Segment
  language : String
  processing_time_seconds : ℚ
  model_used : String
deriving DecidableEq

/-- `fastapi.HTTPException(status_code, detail)`. -/
structure HTTPExceptionE where
  status_code : Nat
  detail : String
deriving DecidableEq

/-- A Python exception live inside the handler's `try` block: either an
`HTTPException` (the validation `raise`) or any other exception, carrying its
message (the model call's failures). -/
inductive PyExc where
  | http (e : HTTPExceptionE)
  | generic (msg : String)
deriving DecidableEq

/-- Python `str(e)`.  Starlette's `HTTPException.__str__` renders
`"{status_code}: {detail}"`; a plain exception renders its message. -/
def pyExcStr : PyExc → String
  | .http e => toString e.status_code ++ ": " ++ e.detail
  | .generic msg => msg

/-- Filesystem effect of one request on its temporary file: whether the
`NamedTemporaryFile` was created, and whether `os.unlink` ran on it. -/
structure TempTrace where
  created : Bool
  deleted : Bool
deriving DecidableEq

/-- The process-wide configuration the handlers read: the model-size constant
and the dialect dictionary, both set at import time and never assigned
afterwards. -/
structure ServerConfig where
  MODEL_SIZE : String
  DIALECT_MAPPING : List (String × String)

/-- The shipped configuration of `app.py`. -/
def server_config : ServerConfig :=
  { MODEL_SIZE := MODEL_SIZE, DIALECT_MAPPING := DIALECT_MAPPING }

/-- The external whisper capability: `transcribe(path, **options)`, returning
the raw result or raising (modelled as `Except` with the exception message). -/
abbrev Oracle := String → TranscriptionOptions → Except String RawResult

/-- `valid_extensions` from `app.py` line 62. -/
def valid_extensions : List String := [".mp3", ".wav", ".m4a", ".ogg", ".flac"]

/-- Detail string of the validation `HTTPException` (line 67):
f-string over `', '.join(valid_extensions)`. -/
def unsupported_format_detail : String :=
  "صيغة الملف غير مدعومة. الصيغ المدعومة: " ++ String.intercalate ", " valid_extensions

/-- Prefix of the blanket `except Exception` handler's detail (line 111). -/
def processing_error_wrap : String := "حدث خطأ أثناء معالجة الملف: "

/-- The `options` dict of `app.py` lines 76-82: `language`, `temperature` and
`beam_size` are the request parameters verbatim; `task` and `initial_prompt`
are the two string literals. -/
def mk_options (req : TranscribeRequest) : TranscriptionOptions :=
  { language := req.language
    task := "transcribe"
    temperature := req.temperature
    beam_size := req.beam_size
    initial_prompt := "نص عربي يحتوي على لهجات شامية مع بعض الكلمات العامية." }

/-- The post-processing block of `app.py` lines 87-91: when the request's
language is `"ar"` and `include_dialect_info` is set, rewrite the top-level
text and each segment's text through `post_process_arabic_text`; otherwise
leave the result untouched. -/
def apply_dialect (cfg : ServerConfig) (req : TranscribeRequest) (result : RawResult) :
    RawResult :=
  if req.language = "ar" ∧ req.include_dialect_info = true then
    { text := post_process_arabic_text_with cfg.DIALECT_MAPPING result.text
      segments := result.segments.map
        (fun s => { s with text := post_process_arabic_text_with cfg.DIALECT_MAPPING s.text }) }
  else result

/-- Body of the `try` block of `transcribe_audio` (`app.py` lines 58-106):
extension check, temp-file creation, option assembly, model invocation,
post-processing, unlink, and the success dict.  Returns the outcome
(success value or the exception in flight) paired with the temp-file trace.
Note `os.unlink` (line 97) is reached only on the success path; there is no
`finally`. -/
def try_body (cfg : ServerConfig) (f : Oracle) (temp_file_path : String) (elapsed : ℚ)
    (req : TranscribeRequest) : Except PyExc TranscribeResponse × TempTrace :=
  let file_ext := str_lower (splitext req.filename).2
  if file_ext ∉ valid_extensions then
    (Except.error (PyExc.http { status_code := 400, detail := unsupported_format_detail }),
     { created := false, deleted := false })
  else
    match f temp_file_path (mk_options req) with
    | Except.error msg =>
        (Except.error (PyExc.generic msg), { created := true, deleted := false })
    | Except.ok result =>
        let result2 := apply_dialect cfg req result
        (Except.ok
          { status := "success"
            text := result2.text
            segments := result2.segments
            language := req.language
            processing_time_seconds := elapsed
            model_used := cfg.MODEL_SIZE },
         { created := true, deleted := true })

/-- `transcribe_audio` (`app.py` lines 40-112): the `try` body wrapped by the
blanket `except Exception as e` clause, which converts ANY exception — the
validation `HTTPException(400)` included — into
`HTTPException(500, "حدث خطأ أثناء معالجة الملف: " + str(e))`.
`elapsed` stands for `(datetime.now() - start_time).total_seconds()`. -/
def transcribe_audio_cfg (cfg : ServerConfig) (f : Oracle) (temp_file_path : String)
    (elapsed : ℚ) (req : TranscribeRequest) :
    Except HTTPExceptionE TranscribeResponse × TempTrace :=
  match try_body cfg f temp_file_path elapsed req with
  | (Except.ok r, tr) => (Except.ok r, tr)
  | (Except.error exc, tr) =>
      (Except.error { status_code := 500, detail := processing_error_wrap ++ pyExcStr exc }, tr)

/-- The handler as shipped, closed over the module-level configuration. -/
def transcribe_audio (f : Oracle) (temp_file_path : String) (elapsed : ℚ)
    (req : TranscribeRequest) : Except HTTPExceptionE TranscribeResponse × TempTrace :=
  transcribe_audio_cfg server_config f temp_file_path elapsed req

/-- The JSON body of GET /model-info. -/
structure ModelInfo where
  model_size : String
  supported_languages : String
  arabic_dialects_support : Bool
  status : String
deriving DecidableEq

/-- `get_model_info` (`app.py` lines 114-122): a readout of the static
configuration. -/
def get_model_info (cfg : ServerConfig) : ModelInfo :=
  { model_size := cfg.MODEL_SIZE
    supported_languages := "متعددة (الافتراضي: العربية)"
    arabic_dialects_support := true
    status := "جاهز" }

/-- All inputs of one POST /transcribe request, bundled so a whole request
history can be replayed against the server state. -/
structure TranscribeCall where
  oracle : Oracle
  temp_path : String
  elapsed : ℚ
  req : TranscribeRequest

/-- Handling one request: the response plus the configuration afterwards.
The handler body contains no assignment to `MODEL_SIZE` or
`DIALECT_MAPPING`, so the configuration passes through unchanged. -/
def server_handle (cfg : ServerConfig) (c : TranscribeCall) :
    (Except HTTPExceptionE TranscribeResponse × TempTrace) × ServerConfig :=
  (transcribe_audio_cfg cfg c.oracle c.temp_path c.elapsed c.req, cfg)

/-- Replay a list of transcription requests, threading the configuration. -/
def run_requests (cfg : ServerConfig) : List TranscribeCall → ServerConfig
  | [] => cfg
  | c :: rest => run_requests (server_handle cfg c).2 rest

/-- Oracle raising a decode failure, for exercising the model-error path. -/
def c1_oracle : Oracle := fun _ _ => Except.error "ffmpeg decode failure"

/-- A well-formed `.wav` request. -/
def c1_req : TranscribeRequest :=
  { filename := "recording.wav", file_bytes := [82, 73, 70, 70], language := "ar",
    include_dialect_info := true, temperature := 1/5, beam_size := 5 }

/-- Oracle that succeeds with an empty transcription. -/
def c2_oracle : Oracle := fun _ _ => Except.ok { text := "", segments := [] }

/-- A request whose filename has a disallowed extension. -/
def c2_req : TranscribeRequest :=
  { filename := "notes.txt", file_bytes := [0], language := "ar",
    include_dialect_info := true, temperature := 1/5, beam_size := 5 }

/-- A raw model result containing a Levantine dialect word. -/
def c3_raw : RawResult :=
  { text := "الجو كتير حلو",
    segments := [{ text := "الجو كتير حلو", seg_start := 0, seg_end := 2 }] }

/-- Oracle returning `c3_raw`. -/
def c3_oracle : Oracle := fun _ _ => Except.ok c3_raw

/-- An Arabic request with an upper-case extension (exercises `lower()`). -/
def c3_req : TranscribeRequest :=
  { filename := "voice.OGG", file_bytes := [1], language := "ar",
    include_dialect_info := true, temperature := 0, beam_size := 5 }

/-- A configuration whose dialect mapping holds the spec's example pair. -/
def c3_cfg : ServerConfig :=
  { MODEL_SIZE := "tiny", DIALECT_MAPPING := [("كتير", "كثير")] }

/-- Oracle raising a resource-exhaustion failure. -/
def c4_oracle : Oracle := fun _ _ => Except.error "CUDA out of memory"

/-- A well-formed `.flac` request. -/
def c4_req : TranscribeRequest :=
  { filename := "interview.flac", file_bytes := [3], language := "ar",
    include_dialect_info := true, temperature := 1/5, beam_size := 5 }

/-- A request whose filename has no recognised audio extension at all. -/
def c5_req : TranscribeRequest :=
  { filename := "document.pdf", file_bytes := [4], language := "ar",
    include_dialect_info := true, temperature := 1/5, beam_size := 5 }

/-- A raw result used for the no-substitution claims. -/
def c6_raw : RawResult :=
  { text := "hello there",
    segments := [{ text := "hello", seg_start := 0, seg_end := 1 },
                 { text := "there", seg_start := 1, seg_end := 2 }] }

/-- Oracle returning `c6_raw`. -/
def c6_oracle : Oracle := fun _ _ => Except.ok c6_raw

/-- A non-Arabic request. -/
def c6_req : TranscribeRequest :=
  { filename := "talk.mp3", file_bytes := [5], language := "en",
    include_dialect_info := true, temperature := 1/5, beam_size := 5 }

/-- A request with an out-of-range temperature. -/
def c7_req : TranscribeRequest :=
  { filename := "clip.m4a", file_bytes := [6], language := "en",
    include_dialect_info := false, temperature := 3/2, beam_size := 7 }

/-- A raw Arabic result used for the empty-mapping claim. -/
def c8_raw : RawResult :=
  { text := "الجو كتير حلو",
    segments := [{ text := "الجو كتير حلو", seg_start := 0, seg_end := 2 }] }

/-- Oracle returning `c8_raw`. -/
def c8_oracle : Oracle := fun _ _ => Except.ok c8_raw

/-- An Arabic request with dialect info requested. -/
def c8_req : TranscribeRequest :=
  { filename := "sample.wav", file_bytes := [7], language := "ar",
    include_dialect_info := true, temperature := 1/5, beam_size := 5 }

/-- A raw result for the success-shape claim. -/
def c9_raw : RawResult :=
  { text := "مرحبا", segments := [{ text := "مرحبا", seg_start := 0, seg_end := 1 }] }

/-- Oracle returning `c9_raw`. -/
def c9_oracle : Oracle := fun _ _ => Except.ok c9_raw

/-- A default-parameters `.wav` request. -/
def c9_req : TranscribeRequest :=
  { filename := "hello.wav", file_bytes := [8], language := "ar",
    include_dialect_info := true, temperature := 1/5, beam_size := 5 }

/-- The response `transcribe_audio` computes for `c9_req` under `c9_oracle`. -/
def c9_resp : TranscribeResponse :=
  { status := "success", text := "مرحبا",
    segments := [{ text := "مرحبا", seg_start := 0, seg_end := 1 }],
    language := "ar", processing_time_seconds := 2, model_used := "tiny" }

/-- One recorded request, for replaying histories against the configuration. -/
def c10_call : TranscribeCall :=
  { oracle := c9_oracle, temp_path := "/tmp/tmp0010.wav", elapsed := 1, req := c9_req }

theorem try_body_ok (cfg : ServerConfig) (f : Oracle) (path : String) (e : ℚ)
    (req : TranscribeRequest) (raw : RawResult)
    (hext : str_lower (splitext req.filename).2 ∈ valid_extensions)
    (hmodel : f path (mk_options req) = Except.ok raw) :
    transcribe_audio_cfg cfg f path e req =
      (Except.ok { status := "success", text := (apply_dialect cfg req raw).text,
                   segments := (apply_dialect cfg req raw).segments, language := req.language,
                   processing_time_seconds := e, model_used := cfg.MODEL_SIZE },
       { created := true, deleted := true }) := by
  simp only [transcribe_audio_cfg, try_body, if_neg (not_not_intro hext), hmodel]

theorem transcribe_invalid_ext (cfg : ServerConfig) (f : Oracle) (path : String) (e : ℚ)
    (req : TranscribeRequest)
    (hext : str_lower (splitext req.filename).2 ∉ valid_extensions) :
    transcribe_audio_cfg cfg f path e req =
      (Except.error { status_code := 500,
                      detail := processing_error_wrap ++ "400: " ++ unsupported_format_detail },
       { created := false, deleted := false }) := by
  simp only [transcribe_audio_cfg, try_body, if_pos hext, pyExcStr]
  rfl

theorem transcribe_model_error (cfg : ServerConfig) (f : Oracle) (path : String) (e : ℚ)
    (req : TranscribeRequest) (msg : String)
    (hext : str_lower (splitext req.filename).2 ∈ valid_extensions)
    (hmodel : f path (mk_options req) = Except.error msg) :
    transcribe_audio_cfg cfg f path e req =
      (Except.error { status_code := 500, detail := processing_error_wrap ++ msg },
       { created := true, deleted := false }) := by
  simp only [transcribe_audio_cfg, try_body, if_neg (not_not_intro hext), hmodel, pyExcStr]

theorem map_id_segments (segs : List Segment) :
    segs.map (fun s => { s with text := post_process_arabic_text_with [] s.text }) = segs := by
  induction segs with
  | nil => rfl
  | cons s rest ih =>
      rw [List.map_cons, ih]
      show ({ text := post_process_arabic_text_with [] s.text, seg_start := s.seg_start,
              seg_end := s.seg_end } : Segment) :: rest = s :: rest
      rfl

theorem apply_dialect_empty (cfg : ServerConfig) (hmap : cfg.DIALECT_MAPPING = [])
    (req : TranscribeRequest) (raw : RawResult) :
    apply_dialect cfg req raw = raw := by
  unfold apply_dialect
  rw [hmap]
  split
  · exact congrArg (RawResult.mk raw.text) (map_id_segments raw.segments)
  · rfl

/-- C1: the claim says the temporary file is deleted on every exit path of the
transcription handler, including when the external capability raises.  On the
code this fails: for the valid request `c1_req` whose model call raises, the
handler creates the temporary file (`created = true`) and returns without
unlinking it (`deleted = false`) — `os.unlink` sits on the success path only
and there is no `finally` block. -/
theorem C1_temp_file_leaked_on_model_error :
    (transcribe_audio c1_oracle "/tmp/tmp0001.wav" 1 c1_req).2.created = true ∧
    (transcribe_audio c1_oracle "/tmp/tmp0001.wav" 1 c1_req).2.deleted = false :=
  ⟨rfl, rfl⟩

/-- C2: the claim says a disallowed extension fails with a 400 ValidationError.
The code does raise `HTTPException(400, ...)` with the allow-list in the
message, but inside the `try` block, and the blanket `except Exception`
catches that very exception and re-raises it with status 500.  For the
`.txt` request `c2_req` the observable outcome is HTTP 500 whose detail wraps
the stringified 400 error. -/
theorem C2_validation_error_surfaces_as_500 :
    (transcribe_audio c2_oracle "/tmp/tmp0002.txt" 1 c2_req).1 =
      Except.error { status_code := 500,
                     detail := processing_error_wrap ++ "400: " ++ unsupported_format_detail } :=
  rfl

/-- C3: when the language is `"ar"` and `include_dialect_info` is true, the
handler rewrites the top-level text and each segment's text independently
through the dialect-annotation pass (each `(dialect, fusha)` pair in mapping
order, every occurrence replaced by `dialect (fusha)` on the already-modified
string); and on the mapping `[("كتير", "كثير")]` the input `"الجو كتير حلو"`
post-processes to `"الجو كتير (كثير) حلو"`. -/
theorem C3_dialect_annotation_applied (cfg : ServerConfig) (f : Oracle) (path : String)
    (e : ℚ) (req : TranscribeRequest) (raw : RawResult)
    (hlang : req.language = "ar") (hinc : req.include_dialect_info = true)
    (hext : str_lower (splitext req.filename).2 ∈ valid_extensions)
    (hmodel : f path (mk_options req) = Except.ok raw) :
    (transcribe_audio_cfg cfg f path e req).1 =
      Except.ok { status := "success",
                  text := post_process_arabic_text_with cfg.DIALECT_MAPPING raw.text,
                  segments := raw.segments.map
                    (fun s => { s with
                      text := post_process_arabic_text_with cfg.DIALECT_MAPPING s.text }),
                  language := req.language, processing_time_seconds := e,
                  model_used := cfg.MODEL_SIZE } ∧
    post_process_arabic_text_with [("كتير", "كثير")] "الجو كتير حلو" = "الجو كتير (كثير) حلو" := by
  have ha : apply_dialect cfg req raw =
      { text := post_process_arabic_text_with cfg.DIALECT_MAPPING raw.text,
        segments := raw.segments.map
          (fun s => { s with text := post_process_arabic_text_with cfg.DIALECT_MAPPING s.text }) } := by
    unfold apply_dialect
    rw [if_pos ⟨hlang, hinc⟩]
  constructor
  · rw [try_body_ok cfg f path e req raw hext hmodel, ha]
  · decide

/-- C3 witness: the theorem instantiated at a concrete Arabic `.OGG` request
with the spec's example mapping. -/
theorem C3_witness :
    (transcribe_audio_cfg c3_cfg c3_oracle "/tmp/tmp0003.ogg" 1 c3_req).1 =
      Except.ok { status := "success",
                  text := post_process_arabic_text_with c3_cfg.DIALECT_MAPPING c3_raw.text,
                  segments := c3_raw.segments.map
                    (fun s => { s with
                      text := post_process_arabic_text_with c3_cfg.DIALECT_MAPPING s.text }),
                  language := c3_req.language, processing_time_seconds := 1,
                  model_used := c3_cfg.MODEL_SIZE } ∧
    post_process_arabic_text_with [("كتير", "كثير")] "الجو كتير حلو" = "الجو كتير (كثير) حلو" :=
  C3_dialect_annotation_applied c3_cfg c3_oracle "/tmp/tmp0003.ogg" 1 c3_req c3_raw rfl rfl
    (by decide) rfl

/-- C4: when the external capability raises, the handler catches the failure
and re-raises a generic 500 whose detail wraps the original message; no
retry happens and no partial result is returned (the outcome is the error,
and the temporary-file trace shows a single aborted pass). -/
theorem C4_model_failure_becomes_processing_error (cfg : ServerConfig) (f : Oracle)
    (path : String) (e : ℚ) (req : TranscribeRequest) (msg : String)
    (hext : str_lower (splitext req.filename).2 ∈ valid_extensions)
    (hmodel : f path (mk_options req) = Except.error msg) :
    (transcribe_audio_cfg cfg f path e req).1 =
      Except.error { status_code := 500, detail := processing_error_wrap ++ msg } := by
  rw [transcribe_model_error cfg f path e req msg hext hmodel]

/-- C4 witness: the theorem at a `.flac` request whose model call raises. -/
theorem C4_witness :
    (transcribe_audio_cfg server_config c4_oracle "/tmp/tmp0004.flac" 1 c4_req).1 =
      Except.error { status_code := 500,
                     detail := processing_error_wrap ++ "CUDA out of memory" } :=
  C4_model_failure_becomes_processing_error server_config c4_oracle "/tmp/tmp0004.flac" 1 c4_req
    "CUDA out of memory" (by decide) rfl

/-- C5: a request whose filename extension falls outside the allow-list is
rejected before any file I/O: the temporary file is never created, and the
handler's outcome is an error. -/
theorem C5_invalid_extension_writes_no_file (cfg : ServerConfig) (f : Oracle) (path : String)
    (e : ℚ) (req : TranscribeRequest)
    (hext : str_lower (splitext req.filename).2 ∉ valid_extensions) :
    (transcribe_audio_cfg cfg f path e req).2.created = false ∧
    ∃ err, (transcribe_audio_cfg cfg f path e req).1 = Except.error err := by
  rw [transcribe_invalid_ext cfg f path e req hext]
  exact ⟨rfl, _, rfl⟩

/-- C5 witness: the theorem at a `.pdf` request. -/
theorem C5_witness :
    (transcribe_audio_cfg server_config c2_oracle "/tmp/tmp0005.pdf" 1 c5_req).2.created = false ∧
    ∃ err, (transcribe_audio_cfg server_config c2_oracle "/tmp/tmp0005.pdf" 1 c5_req).1 =
      Except.error err :=
  C5_invalid_extension_writes_no_file server_config c2_oracle "/tmp/tmp0005.pdf" 1 c5_req
    (by decide)

/-- C6: with `include_dialect_info = false` or a language other than `"ar"`,
the returned top-level text and segments are exactly the raw oracle output:
no substitution is applied. -/
theorem C6_no_substitution_outside_arabic (cfg : ServerConfig) (f : Oracle) (path : String)
    (e : ℚ) (req : TranscribeRequest) (raw : RawResult)
    (hno : ¬(req.language = "ar" ∧ req.include_dialect_info = true))
    (hext : str_lower (splitext req.filename).2 ∈ valid_extensions)
    (hmodel : f path (mk_options req) = Except.ok raw) :
    (transcribe_audio_cfg cfg f path e req).1 =
      Except.ok { status := "success", text := raw.text, segments := raw.segments,
                  language := req.language, processing_time_seconds := e,
                  model_used := cfg.MODEL_SIZE } := by
  have ha : apply_dialect cfg req raw = raw := by
    unfold apply_dialect
    rw [if_neg hno]
  rw [try_body_ok cfg f path e req raw hext hmodel, ha]

/-- C6 witness: the theorem at an English `.mp3` request. -/
theorem C6_witness :
    (transcribe_audio_cfg server_config c6_oracle "/tmp/tmp0006.mp3" 1 c6_req).1 =
      Except.ok { status := "success", text := c6_raw.text, segments := c6_raw.segments,
                  language := c6_req.language, processing_time_seconds := 1,
                  model_used := server_config.MODEL_SIZE } :=
  C6_no_substitution_outside_arabic server_config c6_oracle "/tmp/tmp0006.mp3" 1 c6_req c6_raw
    (by decide) (by decide) rfl

/-- C7: the options record passed to the external capability always has
`task = "transcribe"` and the fixed static initial-prompt string (the same
for every request, so not derived from any input), while `temperature` and
`beam_size` are forwarded verbatim — no clamping or validation, so an
out-of-range temperature reaches the model unchanged.  The final conjunct
pins down that the handler consults the oracle only at `mk_options req`:
oracles agreeing there produce identical handler outcomes. -/
theorem C7_options_forwarded_verbatim (req : TranscribeRequest) :
    (mk_options req).task = "transcribe" ∧
    (mk_options req).initial_prompt =
      "نص عربي يحتوي على لهجات شامية مع بعض الكلمات العامية." ∧
    (∀ req2 : TranscribeRequest,
      (mk_options req2).initial_prompt = (mk_options req).initial_prompt) ∧
    (mk_options req).temperature = req.temperature ∧
    (mk_options req).beam_size = req.beam_size ∧
    ∀ (cfg : ServerConfig) (f g : Oracle) (path : String) (e : ℚ),
      f path (mk_options req) = g path (mk_options req) →
      transcribe_audio_cfg cfg f path e req = transcribe_audio_cfg cfg g path e req := by
  refine ⟨rfl, rfl, fun _ => rfl, rfl, rfl, ?_⟩
  intro cfg f g path e hfg
  simp only [transcribe_audio_cfg, try_body, hfg]

/-- C7 witness: the theorem at a request whose temperature 3/2 lies outside
[0, 1]; the options record still carries it verbatim. -/
theorem C7_witness :
    (mk_options c7_req).task = "transcribe" ∧
    (mk_options c7_req).initial_prompt =
      "نص عربي يحتوي على لهجات شامية مع بعض الكلمات العامية." ∧
    (∀ req2 : TranscribeRequest,
      (mk_options req2).initial_prompt = (mk_options c7_req).initial_prompt) ∧
    (mk_options c7_req).temperature = 3/2 ∧
    (mk_options c7_req).beam_size = 7 ∧
    ∀ (cfg : ServerConfig) (f g : Oracle) (path : String) (e : ℚ),
      f path (mk_options c7_req) = g path (mk_options c7_req) →
      transcribe_audio_cfg cfg f path e c7_req = transcribe_audio_cfg cfg g path e c7_req :=
  C7_options_forwarded_verbatim c7_req

/-- C8: with the shipped empty `DIALECT_MAPPING`, `post_process_arabic_text`
is the identity on every string, and consequently a successful Arabic request
with dialect info enabled still returns the raw model text and segments
unchanged. -/
theorem C8_empty_mapping_is_identity :
    (∀ t : String, post_process_arabic_text t = t) ∧
    ∀ (f : Oracle) (path : String) (e : ℚ) (req : TranscribeRequest) (raw : RawResult),
      req.language = "ar" → req.include_dialect_info = true →
      str_lower (splitext req.filename).2 ∈ valid_extensions →
      f path (mk_options req) = Except.ok raw →
      (transcribe_audio f path e req).1 =
        Except.ok { status := "success", text := raw.text, segments := raw.segments,
                    language := req.language, processing_time_seconds := e,
                    model_used := MODEL_SIZE } := by
  constructor
  · intro t
    rfl
  · intro f path e req raw hlang hinc hext hmodel
    show (transcribe_audio_cfg server_config f path e req).1 = _
    rw [try_body_ok server_config f path e req raw hext hmodel,
      apply_dialect_empty server_config rfl req raw]
    rfl

/-- C8 witness: the theorem's second conjunct at a concrete Arabic `.wav`
request whose raw text contains a dialect word; with the shipped empty
mapping the response carries it verbatim. -/
theorem C8_witness :
    (∀ t : String, post_process_arabic_text t = t) ∧
    (transcribe_audio c8_oracle "/tmp/tmp0008.wav" 1 c8_req).1 =
      Except.ok { status := "success", text := c8_raw.text, segments := c8_raw.segments,
                  language := c8_req.language, processing_time_seconds := 1,
                  model_used := MODEL_SIZE } :=
  ⟨C8_empty_mapping_is_identity.1,
   C8_empty_mapping_is_identity.2 c8_oracle "/tmp/tmp0008.wav" 1 c8_req c8_raw rfl rfl
     (by decide) rfl⟩

/-- C9: every successful handler outcome is the record
`{status := "success", text, segments, language, processing_time_seconds,
model_used}` with `language` echoing the request's language parameter,
`model_used` the configured model size, and text/segments the
(possibly post-processed) oracle output. -/
theorem C9_success_response_shape (cfg : ServerConfig) (f : Oracle) (path : String) (e : ℚ)
    (req : TranscribeRequest) (resp : TranscribeResponse) (tr : TempTrace)
    (h : transcribe_audio_cfg cfg f path e req = (Except.ok resp, tr)) :
    resp.status = "success" ∧ resp.language = req.language ∧
    resp.processing_time_seconds = e ∧ resp.model_used = cfg.MODEL_SIZE ∧
    ∃ raw, f path (mk_options req) = Except.ok raw ∧
      resp.text = (apply_dialect cfg req raw).text ∧
      resp.segments = (apply_dialect cfg req raw).segments := by
  by_cases hext : str_lower (splitext req.filename).2 ∈ valid_extensions
  · cases hm : f path (mk_options req) with
    | error msg =>
        rw [transcribe_model_error cfg f path e req msg hext hm] at h
        simp at h
    | ok raw =>
        rw [try_body_ok cfg f path e req raw hext hm, Prod.mk.injEq, Except.ok.injEq] at h
        obtain ⟨h1, h2⟩ := h
        subst h1
        exact ⟨rfl, rfl, rfl, rfl, raw, rfl, rfl, rfl⟩
  · rw [transcribe_invalid_ext cfg f path e req hext] at h
    simp at h

/-- C9 witness: the theorem at a concrete successful `.wav` request. -/
theorem C9_witness :
    c9_resp.status = "success" ∧ c9_resp.language = c9_req.language ∧
    c9_resp.processing_time_seconds = 2 ∧ c9_resp.model_used = server_config.MODEL_SIZE ∧
    ∃ raw, c9_oracle "/tmp/tmp0009.wav" (mk_options c9_req) = Except.ok raw ∧
      c9_resp.text = (apply_dialect server_config c9_req raw).text ∧
      c9_resp.segments = (apply_dialect server_config c9_req raw).segments :=
  C9_success_response_shape server_config c9_oracle "/tmp/tmp0009.wav" 2 c9_req c9_resp
    { created := true, deleted := true } rfl

theorem run_requests_id (cfg : ServerConfig) (calls : List TranscribeCall) :
    run_requests cfg calls = cfg := by
  induction calls generalizing cfg with
  | nil => rfl
  | cons c rest ih => exact ih cfg

/-- C10: the model-info accessor returns the statically configured record —
model size, supported-languages note, dialect-support flag, status — and its
output is unchanged by any prior sequence of transcription requests, because
request handling never writes the shared configuration. -/
theorem C10_model_info_static (calls : List TranscribeCall) :
    get_model_info (run_requests server_config calls) = get_model_info server_config ∧
    get_model_info server_config =
      { model_size := MODEL_SIZE,
        supported_languages := "متعددة (الافتراضي: العربية)",
        arabic_dialects_support := true, status := "جاهز" } :=
  ⟨by rw [run_requests_id], rfl⟩

/-- C10 witness: the theorem after replaying one concrete request. -/
theorem C10_witness :
    get_model_info (run_requests server_config [c10_call]) = get_model_info server_config ∧
    get_model_info server_config =
      { model_size := MODEL_SIZE,
        supported_languages := "متعددة (الافتراضي: العربية)",
        arabic_dialects_support := true, status := "جاهز" } :=
  C10_model_info_static [c10_call]
